import Mathlib

/-!
Shallow embedding of the admin-console / auth-gateway code
(`src/services/authService.ts` and the admin panel component) and proofs
about the behaviours its specification claims.

JavaScript strings are modelled as lists of characters (`Str`); the JS
value `undefined`/`null` is modelled by `Option`.  Remote (supabase /
TransactionContext) responses are passed in explicitly as arguments, so
every gateway function becomes a pure function of its inputs and of the
remote outcome.
-/

/-- Model of a JavaScript string: a list of characters. -/
abbrev Str := List Char

/-- Model of `String.prototype.toLowerCase` (ASCII-relevant part). -/
def toLowerStr (s : Str) : Str := s.map Char.toLower

/-- Model of `String.prototype.trim`: strip whitespace from both ends. -/
def trimStr (s : Str) : Str :=
  ((s.dropWhile Char.isWhitespace).reverse.dropWhile Char.isWhitespace).reverse

/-- Model of `haystack.includes(needle)`: substring (infix) containment. -/
def includesStr (s sub : Str) : Bool := decide (sub <:+: s)

/-- JS truthiness of a possibly-undefined string: `undefined`, `null` and
the empty string are falsy, any non-empty string is truthy. -/
def truthyStr : Option Str → Bool
  | some (_ :: _) => true
  | _ => false

/-- JS `v || d` for a possibly-undefined string `v`: the empty string is
falsy, so it also falls through to the default. -/
def jsOrStr (v : Option Str) (d : Str) : Str :=
  match v with
  | some (c :: cs) => c :: cs
  | _ => d

/-- JS `v || d` for a possibly-undefined boolean `v`: only `true` is truthy. -/
def jsOrBool (v : Option Bool) (d : Bool) : Bool :=
  match v with
  | some true => true
  | _ => d

/-- JS `v || d` for a possibly-undefined number `v`: `0` is falsy (the JS
`NaN`, also falsy, does not arise for the stored values modelled here). -/
def jsOrNum (v : Option Rat) (d : Rat) : Rat :=
  match v with
  | some n => if n = 0 then d else n
  | none => d

/-- Model of `s.split(sep)` for a single-character separator: JS `split`
always returns a non-empty array, with `""` giving `[""]`. -/
def jsSplit (sep : Char) : Str → List Str
  | [] => [[]]
  | c :: cs =>
      let rest := jsSplit sep cs
      if c = sep then [] :: rest
      else
        match rest with
        | r :: rs => (c :: r) :: rs
        | [] => [[c]]

/-- Numeric value of a run of decimal digits. -/
def digitsVal (l : Str) : Nat := l.foldl (fun n c => 10 * n + (c.toNat - 48)) 0

/-- Models the JavaScript builtin `parseFloat` on the inputs relevant here:
leading whitespace, an optional sign, then decimal digits with an optional
fractional part; a result of `none` models `NaN` (no numeric prefix at
all).  Exponents and `Infinity` are not modelled. -/
def jsParseFloat (s : Str) : Option Rat :=
  let s1 := s.dropWhile Char.isWhitespace
  let signRest : Rat × Str :=
    match s1 with
    | '-' :: t => (-1, t)
    | '+' :: t => (1, t)
    | _ => (1, s1)
  let intPart := signRest.2.takeWhile Char.isDigit
  let rest := signRest.2.dropWhile Char.isDigit
  let fracPart :=
    match rest with
    | '.' :: t => t.takeWhile Char.isDigit
    | _ => []
  if intPart.isEmpty && fracPart.isEmpty then none
  else
    some (signRest.1 *
      ((digitsVal intPart : Rat) + (digitsVal fracPart : Rat) / ((10 : Rat) ^ fracPart.length)))

/-- Row of the `notifications` table as consumed by the gateway. -/
structure Notification where
  id : Str
  user_id : Str
  message : Str
  date : Str
  read : Bool
deriving DecidableEq

/-- Row of the `profiles` table.  The gateway reads it as an untyped
object (`any`), so every column may be absent (`none`). -/
structure ProfileRow where
  id : Option Str := none
  email : Option Str := none
  full_name : Option Str := none
  username : Option Str := none
  phone_number : Option Str := none
  is_admin : Option Bool := none
  is_verified : Option Bool := none
  balance : Option Rat := none
  profile_picture_url : Option Str := none
deriving DecidableEq

/-- The remote auth service's account record as used by the gateway
(`authData.user` / `session.user`): `id` is always present, `email` may
be absent. -/
structure AuthUser where
  id : Str
  email : Option Str := none
deriving DecidableEq

/-- Application-facing user record.  Fields that the loose row-to-record
mappings can leave `undefined` are `Option`; `email` is defaulted by
every mapping in the source and so is always defined. -/
structure User where
  id : Option Str
  email : Str
  fullName : Option Str
  username : Option Str
  phoneNumber : Option Str
  isAdmin : Option Bool
  isVerified : Option Bool
  balance : Option Rat
  notifications : List Notification
  profilePictureUrl : Option Str
deriving DecidableEq

/-- Embeds `mapProfileToUser` from `src/services/authService.ts`: every
`||`-defaulted field receives a defined value. -/
def mapProfileToUser (profile : ProfileRow) (authUser : AuthUser) : User :=
  { id := some authUser.id
  , email := jsOrStr profile.email (jsOrStr authUser.email [])
  , fullName := some (jsOrStr profile.full_name [])
  , username := some (jsOrStr profile.username [])
  , phoneNumber := some (jsOrStr profile.phone_number [])
  , isAdmin := some (jsOrBool profile.is_admin false)
  , isVerified := some (jsOrBool profile.is_verified false)
  , balance := some (jsOrNum profile.balance 0)
  , notifications := []
  , profilePictureUrl := profile.profile_picture_url }

/-- Embeds the inline row mapping inside `getAllUsers` (the
`profiles.map((p: any) => ({...}))` lambda): only `email` is defaulted
(`p.email || ''`); every other column is passed through unchanged. -/
def getAllUsersRowMap (p : ProfileRow) : User :=
  { id := p.id
  , email := jsOrStr p.email []
  , fullName := p.full_name
  , username := p.username
  , phoneNumber := p.phone_number
  , isAdmin := p.is_admin
  , isVerified := p.is_verified
  , balance := p.balance
  , notifications := []
  , profilePictureUrl := p.profile_picture_url }

/-- Embeds `getAllUsers`: the argument is the remote query response
(`error` gives the empty list, otherwise the rows are mapped). -/
def getAllUsers (response : Except Str (List ProfileRow)) : List User :=
  match response with
  | Except.error _ => []
  | Except.ok profiles => profiles.map getAllUsersRowMap

/-- Outcome of the remote `supabase.auth.signUp` call as the gateway
distinguishes it: an error, a missing `authData.user`, or a user. -/
inductive SignUpResult where
  | failure (message : Str)
  | noUser
  | success (user : AuthUser)
deriving DecidableEq

/-- Caller-supplied data for `register` (the `Omit<User,...> & password`
argument type). -/
structure RegisterData where
  email : Str
  fullName : Str
  phoneNumber : Str
  password : Str
deriving DecidableEq

/-- Result of `register`, together with the profile row upserted into the
`profiles` table (if any) so that the remote side effect is visible. -/
structure RegisterOutcome where
  user : Option User
  error : Option Str
  insertedProfile : Option ProfileRow
deriving DecidableEq

/-- Embeds `register`: `signUp` is the outcome of the remote account
creation and `upsertOk` tells whether the subsequent profile upsert
succeeded (on success the upserted row is also the row returned by
`.select().single()`). -/
def register (userData : RegisterData) (signUp : SignUpResult) (upsertOk : Bool) :
    RegisterOutcome :=
  match signUp with
  | SignUpResult.failure msg => { user := none, error := some msg, insertedProfile := none }
  | SignUpResult.noUser =>
      { user := none, error := some "Gagal membuat akun.".toList, insertedProfile := none }
  | SignUpResult.success authUser =>
      let userId := authUser.id
      let username := toLowerStr ((jsSplit '@' userData.email).headD [])
      let row : ProfileRow :=
        { id := some userId
        , email := some userData.email
        , full_name := some userData.fullName
        , username := some username
        , phone_number := some userData.phoneNumber
        , is_admin := some false
        , is_verified := some false
        , balance := some 13000000 }
      if upsertOk then
        { user := some (mapProfileToUser row authUser), error := none, insertedProfile := some row }
      else
        { user := none
        , error := some "Autentikasi sukses, tapi profil gagal disimpan.".toList
        , insertedProfile := none }

/-- Partial user record passed to `updateUserInfo` (`Partial<User>` /
`UserProfileUpdate`): every field may be absent. -/
structure UserProfileUpdate where
  id : Option Str := none
  email : Option Str := none
  fullName : Option Str := none
  username : Option Str := none
  phoneNumber : Option Str := none
  isAdmin : Option Bool := none
  isVerified : Option Bool := none
  balance : Option Rat := none
  profilePictureUrl : Option Str := none
deriving DecidableEq

/-- The sparse `updates` object sent to the `profiles` table: a field is
`some v` exactly when the corresponding key is present in the update. -/
structure ProfileUpdates where
  full_name : Option Str := none
  phone_number : Option Str := none
  profile_picture_url : Option Str := none
  is_verified : Option Bool := none
deriving DecidableEq

/-- Embeds the `updates` object built inside `updateUserInfo`: the three
string fields are copied only when truthy, while `is_verified` is copied
whenever it is defined (`!== undefined`), including `false`. -/
def updateUserInfoUpdates (updatedData : UserProfileUpdate) : ProfileUpdates :=
  { full_name := if truthyStr updatedData.fullName then updatedData.fullName else none
  , phone_number := if truthyStr updatedData.phoneNumber then updatedData.phoneNumber else none
  , profile_picture_url :=
      if truthyStr updatedData.profilePictureUrl then updatedData.profilePictureUrl else none
  , is_verified := updatedData.isVerified }

/-- Effect of a supabase `update(updates)` on one stored row: keys present
in the update overwrite the stored column, absent keys leave it alone. -/
def applyProfileUpdates (row : ProfileRow) (updates : ProfileUpdates) : ProfileRow :=
  { row with
    full_name := (match updates.full_name with | some v => some v | none => row.full_name)
  , phone_number := (match updates.phone_number with | some v => some v | none => row.phone_number)
  , profile_picture_url :=
      (match updates.profile_picture_url with
        | some v => some v
        | none => row.profile_picture_url)
  , is_verified := (match updates.is_verified with | some v => some v | none => row.is_verified) }

/-- Embeds `updateUserInfo` over an explicit `profiles` store: with a
falsy `id` it returns at once (no remote call, boolean `false`);
otherwise the rows matching `.eq('id', updatedData.id)` receive the
sparse update. -/
def updateUserInfo (store : List ProfileRow) (updatedData : UserProfileUpdate) :
    List ProfileRow × Bool :=
  if truthyStr updatedData.id = false then (store, false)
  else
    (store.map fun row =>
        if row.id = updatedData.id then applyProfileUpdates row (updateUserInfoUpdates updatedData)
        else row,
      true)

/-- Caller-supplied data for `adminCreateUser` (the `Omit<User, 'id' |
'username' | 'notifications'> & password` argument type). -/
structure AdminCreateData where
  email : Str
  fullName : Str
  phoneNumber : Str
  password : Str
  isAdmin : Bool
  isVerified : Bool
  balance : Rat
  profilePictureUrl : Option Str := none
deriving DecidableEq

/-- The profile row `adminCreateUser` inserts: flags and balance come from
the caller (`|| false`, `|| 0`), the username is the raw (not lowercased)
local part of the email. -/
def adminCreateRow (userData : AdminCreateData) (authUser : AuthUser) : ProfileRow :=
  { id := some authUser.id
  , email := some userData.email
  , full_name := some userData.fullName
  , username := some ((jsSplit '@' userData.email).headD [])
  , phone_number := some userData.phoneNumber
  , is_admin := some (userData.isAdmin || false)
  , is_verified := some (userData.isVerified || false)
  , balance := some (jsOrNum (some userData.balance) 0) }

/-- Embeds `adminCreateUser`.  The insert's error is never checked in the
source: on a failed insert `profileData` is `null` and
`mapProfileToUser(null, ...)` throws, which the surrounding `try` catches,
returning `null` — modelled directly as `none`. -/
def adminCreateUser (userData : AdminCreateData) (signUp : SignUpResult) (insertOk : Bool) :
    Option User :=
  match signUp with
  | SignUpResult.failure _ => none
  | SignUpResult.noUser => none
  | SignUpResult.success authUser =>
      if insertOk then some (mapProfileToUser (adminCreateRow userData authUser) authUser)
      else none

/-- Console-side view of a user: the fields of the application `User`
record that the admin panel's handlers read.  Modelled from the spec:
the `User` interface lives in `types.ts`, which is not among the given
sources; the spec's data model lists identifier, email, full name and
numeric balance as always-present fields. -/
structure UserView where
  id : Str
  email : Str
  fullName : Str
  balance : Rat
deriving DecidableEq

/-- Transaction record as rendered by the admin panel. -/
inductive TransactionType where
  | DEPOSIT
  | WITHDRAWAL
  | TRANSFER
deriving DecidableEq

/-- Transaction status values. -/
inductive TransactionStatus where
  | PENDING
  | SUCCESS
  | REJECTED
  | CANCELLED
  | FAILED
deriving DecidableEq

/-- Transaction row as consumed by the admin panel. -/
structure Transaction where
  id : Str
  userId : Str
  type : TransactionType
  amount : Rat
  status : TransactionStatus
  date : Str
deriving DecidableEq

/-- Embeds the filter predicate of the `trxSearch` effect: substring match
of the lowercased search string against the transaction id, the owner id,
and the owning user's email and full name (optional chaining makes a
missing owner contribute `undefined`, i.e. `false`, to the `||` chain). -/
def trxMatches (lower : Str) (users : List UserView) (t : Transaction) : Bool :=
  includesStr (toLowerStr t.id) lower ||
  includesStr (toLowerStr t.userId) lower ||
  (match users.find? fun u => u.id == t.userId with
    | some u => includesStr (toLowerStr u.email) lower
    | none => false) ||
  (match users.find? fun u => u.id == t.userId with
    | some u => includesStr (toLowerStr u.fullName) lower
    | none => false)

/-- Embeds the `trxSearch` effect of the admin panel: a blank search
leaves the list unfiltered, otherwise the lowercased search string is
matched against each transaction. -/
def filterTransactions (trxSearch : Str) (transactions : List Transaction)
    (users : List UserView) : List Transaction :=
  if trimStr trxSearch = [] then transactions
  else transactions.filter (trxMatches (toLowerStr trxSearch) users)

/-- The action cell rendered for a transaction row: either a status
selector with a concrete option list, or the static text "Auto". -/
inductive StatusCell where
  | selector (options : List TransactionStatus)
  | auto
deriving DecidableEq

/-- Embeds the status-cell JSX of the transactions tab: non-TRANSFER rows
get a selector with PENDING/SUCCESS/REJECTED plus CANCELLED and FAILED
options guarded by `t.type === 'WITHDRAWAL'`; TRANSFER rows get "Auto". -/
def statusCell (t : Transaction) : StatusCell :=
  if t.type ≠ TransactionType.TRANSFER then
    StatusCell.selector
      ([TransactionStatus.PENDING, TransactionStatus.SUCCESS, TransactionStatus.REJECTED] ++
        (if t.type = TransactionType.WITHDRAWAL then [TransactionStatus.CANCELLED] else []) ++
        (if t.type = TransactionType.WITHDRAWAL then [TransactionStatus.FAILED] else []))
  else StatusCell.auto

/-- Mode of the balance modal. -/
inductive BalanceOp where
  | add
  | set
deriving DecidableEq

/-- The relevant state of the balance modal. -/
structure BalanceModalState where
  isOpen : Bool
  selectedUserForBalance : Option UserView
  balanceAmount : Str
  balanceOperation : BalanceOp
deriving DecidableEq

/-- Observable outcome of one `handleBalanceSubmit` invocation: a silent
return, the "Please enter a valid number" alert, or exactly one gateway
call with the parsed amount and the chosen mode. -/
inductive BalanceCall where
  | silent
  | alertInvalid
  | gatewayCall (userId : Str) (amount : Rat) (op : BalanceOp)
deriving DecidableEq

/-- Embeds `handleBalanceSubmit`: guard on a selected user and a non-empty
amount string, reject a `NaN` parse with an alert, otherwise call the
gateway once and reset the modal state. -/
def handleBalanceSubmit (st : BalanceModalState) : BalanceCall × BalanceModalState :=
  match st.selectedUserForBalance with
  | none => (BalanceCall.silent, st)
  | some u =>
      if st.balanceAmount = [] then (BalanceCall.silent, st)
      else
        match jsParseFloat st.balanceAmount with
        | none => (BalanceCall.alertInvalid, st)
        | some amount =>
            (BalanceCall.gatewayCall u.id amount st.balanceOperation,
              { st with isOpen := false, selectedUserForBalance := none, balanceAmount := [] })

/-- Modelled from the spec: `adminUpdateUserBalance` lives in the
`TransactionContext` collaborator, which is not among the given sources.
Per the spec, mode "add" applies the delta to the current balance and
mode "set" replaces it with the absolute value. -/
def adminUpdateUserBalance (priorBalance : Rat) (amount : Rat) (op : BalanceOp) : Rat :=
  match op with
  | BalanceOp.add => priorBalance + amount
  | BalanceOp.set => amount

/-- A profile row with only an id: every other column is absent. -/
def emptyProfileRow : ProfileRow := { id := some "row-1".toList }

/-- A concrete remote auth-service account. -/
def sampleAuthUser : AuthUser := { id := "auth-1".toList }

/-- A stored profile row whose `is_verified` column is `true`. -/
def verifiedRow : ProfileRow := { id := some "u-1".toList, is_verified := some true }

/-- A partial user update that carries `isVerified = false` (a falsy but
defined value) and nothing else. -/
def unverifyPatch : UserProfileUpdate := { id := some "u-1".toList, isVerified := some false }

/-- Concrete registration data. -/
def janeData : RegisterData :=
  { email := "Jane@X.com".toList
  , fullName := "Jane Doe".toList
  , phoneNumber := "0812".toList
  , password := "secret1".toList }

/-- A partial user update with no id at all. -/
def noIdPatch : UserProfileUpdate := { fullName := some "New Name".toList }

/-- Concrete data for the admin create-user form. -/
def sampleAdminData : AdminCreateData :=
  { email := "new@x.com".toList
  , fullName := "New User".toList
  , phoneNumber := []
  , password := "pw".toList
  , isAdmin := false
  , isVerified := true
  , balance := 5000 }

/-- A concrete withdrawal transaction owned by `sampleUserView`. -/
def sampleTrx : Transaction :=
  { id := "trx-9".toList
  , userId := "u-1".toList
  , type := TransactionType.WITHDRAWAL
  , amount := 500
  , status := TransactionStatus.PENDING
  , date := "2024-01-01".toList }

/-- A concrete deposit transaction. -/
def sampleDeposit : Transaction :=
  { id := "trx-3".toList
  , userId := "u-1".toList
  , type := TransactionType.DEPOSIT
  , amount := 700
  , status := TransactionStatus.PENDING
  , date := "2024-01-02".toList }

/-- The console-side record of the user owning `sampleTrx`. -/
def sampleUserView : UserView :=
  { id := "u-1".toList
  , email := "jane@x.com".toList
  , fullName := "Jane Doe".toList
  , balance := 100000 }

/-- The balance modal opened on `sampleUserView` with "50" typed in. -/
def sampleBalanceState : BalanceModalState :=
  { isOpen := true
  , selectedUserForBalance := some sampleUserView
  , balanceAmount := "50".toList
  , balanceOperation := BalanceOp.add }

/-- C1 (counterexample): a profile row with absent `is_admin`,
`is_verified` and `balance` is returned by `getAllUsers` with those
fields still absent — not defaulted to `false` / `0` as the claim
states, because `getAllUsers` uses its own raw inline mapping and not
`mapProfileToUser`. -/
theorem c1_counterexample :
    getAllUsers (Except.ok [emptyProfileRow]) = [getAllUsersRowMap emptyProfileRow] ∧
    (getAllUsersRowMap emptyProfileRow).isAdmin ≠ some false ∧
    (getAllUsersRowMap emptyProfileRow).isVerified ≠ some false ∧
    (getAllUsersRowMap emptyProfileRow).balance ≠ some 0 := by
  refine ⟨rfl, ?_, ?_, ?_⟩ <;> simp [getAllUsersRowMap, emptyProfileRow]

/-- C1 (amended): `getAllUsers` maps every row of the profile-list query
totally to a `User`, but only `email` is defaulted; `is_admin`,
`is_verified` and `balance` are passed through unchanged, so an absent
flag or balance stays absent.  The default-safe mapping (missing flags
become `false`, missing balance becomes `0`) is performed by
`mapProfileToUser`, which the other gateway operations use but
`getAllUsers` does not. -/
theorem c1_amended (rows : List ProfileRow) (p : ProfileRow) (a : AuthUser)
    (hA : p.is_admin = none) (hV : p.is_verified = none) (hB : p.balance = none) :
    getAllUsers (Except.ok rows) = rows.map getAllUsersRowMap ∧
    (∀ r ∈ rows,
        (getAllUsersRowMap r).isAdmin = r.is_admin ∧
        (getAllUsersRowMap r).isVerified = r.is_verified ∧
        (getAllUsersRowMap r).balance = r.balance ∧
        (getAllUsersRowMap r).email = jsOrStr r.email []) ∧
    (mapProfileToUser p a).isAdmin = some false ∧
    (mapProfileToUser p a).isVerified = some false ∧
    (mapProfileToUser p a).balance = some 0 := by
  refine ⟨rfl, fun r _ => ⟨rfl, rfl, rfl, rfl⟩, ?_, ?_, ?_⟩ <;>
    simp [mapProfileToUser, jsOrBool, jsOrNum, hA, hV, hB]

/-- Witness for `c1_amended` at a concrete row and auth user. -/
theorem c1_amended_witness :
    (mapProfileToUser emptyProfileRow sampleAuthUser).isAdmin = some false ∧
    (mapProfileToUser emptyProfileRow sampleAuthUser).balance = some 0 := by
  have h := c1_amended [emptyProfileRow] emptyProfileRow sampleAuthUser rfl rfl rfl
  exact ⟨h.2.2.1, h.2.2.2.2⟩

/-- C2 (counterexample): the claim says a falsy field is never included in
the remote update, but `isVerified` is copied whenever it is defined
(`!== undefined`), so the falsy value `false` is included and does change
the stored row. -/
theorem c2_counterexample :
    (updateUserInfoUpdates unverifyPatch).is_verified = some false ∧
    verifiedRow.is_verified = some true ∧
    (updateUserInfo [verifiedRow] unverifyPatch).1.map ProfileRow.is_verified = [some false] := by
  refine ⟨rfl, rfl, ?_⟩
  simp [updateUserInfo, unverifyPatch, verifiedRow, truthyStr, applyProfileUpdates,
    updateUserInfoUpdates]

/-- C2 (amended): in `updateUserInfo`, the fields `fullName`,
`phoneNumber` and `profilePictureUrl` are included in the remote update
iff present and truthy (falsy values are silently skipped and the stored
columns remain unchanged), while `isVerified` is included iff it is
defined at all — including the falsy value `false`, which does overwrite
the stored column; all other fields (id, email, username, isAdmin,
balance) are never written. -/
theorem c2_amended (d : UserProfileUpdate) (r : ProfileRow)
    (_hid : truthyStr d.id = true) :
    ((updateUserInfoUpdates d).full_name ≠ none ↔ truthyStr d.fullName = true) ∧
    ((updateUserInfoUpdates d).phone_number ≠ none ↔ truthyStr d.phoneNumber = true) ∧
    ((updateUserInfoUpdates d).profile_picture_url ≠ none ↔
        truthyStr d.profilePictureUrl = true) ∧
    ((updateUserInfoUpdates d).is_verified = d.isVerified) ∧
    ((applyProfileUpdates r (updateUserInfoUpdates d)).id = r.id ∧
      (applyProfileUpdates r (updateUserInfoUpdates d)).email = r.email ∧
      (applyProfileUpdates r (updateUserInfoUpdates d)).username = r.username ∧
      (applyProfileUpdates r (updateUserInfoUpdates d)).is_admin = r.is_admin ∧
      (applyProfileUpdates r (updateUserInfoUpdates d)).balance = r.balance) ∧
    (truthyStr d.fullName = false →
      (applyProfileUpdates r (updateUserInfoUpdates d)).full_name = r.full_name) ∧
    (truthyStr d.phoneNumber = false →
      (applyProfileUpdates r (updateUserInfoUpdates d)).phone_number = r.phone_number) ∧
    (truthyStr d.profilePictureUrl = false →
      (applyProfileUpdates r (updateUserInfoUpdates d)).profile_picture_url =
        r.profile_picture_url) ∧
    (d.isVerified = none →
      (applyProfileUpdates r (updateUserInfoUpdates d)).is_verified = r.is_verified) ∧
    (∀ b, d.isVerified = some b →
      (applyProfileUpdates r (updateUserInfoUpdates d)).is_verified = some b) := by
  have hkey : ∀ v : Option Str, ((if truthyStr v then v else none) ≠ none) ↔ truthyStr v = true := by
    intro v
    cases v with
    | none => simp [truthyStr]
    | some s => cases s <;> simp [truthyStr]
  refine ⟨hkey d.fullName, hkey d.phoneNumber, hkey d.profilePictureUrl, rfl, ⟨rfl, rfl, rfl, rfl, rfl⟩,
    ?_, ?_, ?_, ?_, ?_⟩
  · intro h; simp [applyProfileUpdates, updateUserInfoUpdates, h]
  · intro h; simp [applyProfileUpdates, updateUserInfoUpdates, h]
  · intro h; simp [applyProfileUpdates, updateUserInfoUpdates, h]
  · intro h; simp [applyProfileUpdates, updateUserInfoUpdates, h]
  · intro b h; simp [applyProfileUpdates, updateUserInfoUpdates, h]

/-- Witness for `c2_amended` at a concrete patch and stored row. -/
theorem c2_amended_witness :
    (updateUserInfoUpdates unverifyPatch).is_verified = unverifyPatch.isVerified ∧
    (applyProfileUpdates verifiedRow (updateUserInfoUpdates unverifyPatch)).balance =
      verifiedRow.balance ∧
    (applyProfileUpdates verifiedRow (updateUserInfoUpdates unverifyPatch)).full_name =
      verifiedRow.full_name := by
  have h := c2_amended unverifyPatch verifiedRow rfl
  exact ⟨h.2.2.2.1, h.2.2.2.2.1.2.2.2.2, h.2.2.2.2.2.1 rfl⟩

/-- C3: when remote account creation fails (an error, or no user in the
response — e.g. the email already exists), `register` returns a null user
together with a non-null error and no profile row is upserted. -/
theorem c3_register_account_failure (userData : RegisterData) (signUp : SignUpResult)
    (upsertOk : Bool) (h : ∀ a, signUp ≠ SignUpResult.success a) :
    (register userData signUp upsertOk).user = none ∧
    (register userData signUp upsertOk).error ≠ none ∧
    (register userData signUp upsertOk).insertedProfile = none := by
  cases signUp with
  | failure m => exact ⟨rfl, by simp [register], rfl⟩
  | noUser => exact ⟨rfl, by simp [register], rfl⟩
  | success a => exact absurd rfl (h a)

/-- Witness for `c3_register_account_failure` on a duplicate-email
failure. -/
theorem c3_witness :
    (register janeData (SignUpResult.failure "User already registered".toList) true).user =
      none ∧
    (register janeData (SignUpResult.failure "User already registered".toList) true).error ≠
      none ∧
    (register janeData
        (SignUpResult.failure "User already registered".toList) true).insertedProfile =
      none :=
  c3_register_account_failure janeData (SignUpResult.failure "User already registered".toList)
    true (fun _ h => SignUpResult.noConfusion h)

/-- Splitting at the first separator: `jsSplit` on `l ++ sep :: r` with a
separator-free `l` yields `l` as its first chunk. -/
theorem jsSplit_append (l r : Str) (h : '@' ∉ l) :
    jsSplit '@' (l ++ '@' :: r) = l :: jsSplit '@' r := by
  induction l with
  | nil => simp [jsSplit]
  | cons c cs ih =>
      simp only [List.mem_cons, not_or] at h
      have hc : ¬c = '@' := fun hc => h.1 hc.symm
      simp [jsSplit, ih h.2, hc]

/-- C8: every successful `register` call upserts a profile row with
`is_admin = false`, `is_verified = false` and the fixed balance
`13000000`, regardless of the caller-supplied data; its username is the
lowercased local part of the email (the text before the `'@'`). -/
theorem c8_register_profile_defaults (userData : RegisterData) (a : AuthUser) (l r : Str)
    (hemail : userData.email = l ++ '@' :: r) (hl : '@' ∉ l) :
    (register userData (SignUpResult.success a) true).insertedProfile =
      some
        { id := some a.id
        , email := some userData.email
        , full_name := some userData.fullName
        , username := some (toLowerStr l)
        , phone_number := some userData.phoneNumber
        , is_admin := some false
        , is_verified := some false
        , balance := some 13000000 } ∧
    (register userData (SignUpResult.success a) true).error = none := by
  constructor
  · simp [register, hemail, jsSplit_append l r hl]
  · rfl

/-- Witness for `c8_register_profile_defaults` on concrete data: the
mixed-case email `Jane@X.com` yields the lowercased username `jane`. -/
theorem c8_witness :
    (register janeData (SignUpResult.success sampleAuthUser) true).insertedProfile =
      some
        { id := some sampleAuthUser.id
        , email := some janeData.email
        , full_name := some janeData.fullName
        , username := some (toLowerStr "Jane".toList)
        , phone_number := some janeData.phoneNumber
        , is_admin := some false
        , is_verified := some false
        , balance := some 13000000 } ∧
    (register janeData (SignUpResult.success sampleAuthUser) true).error = none :=
  c8_register_profile_defaults janeData sampleAuthUser "Jane".toList "X.com".toList
    (by decide) (by decide)

/-- C9: a partial user record whose id is absent or falsy makes
`updateUserInfo` return immediately: no remote call is made and the
stored profile rows are all unchanged. -/
theorem c9_update_without_id (store : List ProfileRow) (d : UserProfileUpdate)
    (h : truthyStr d.id = false) :
    updateUserInfo store d = (store, false) := by
  simp [updateUserInfo, h]

/-- Witness for `c9_update_without_id` on a concrete store and patch. -/
theorem c9_witness : updateUserInfo [verifiedRow] noIdPatch = ([verifiedRow], false) :=
  c9_update_without_id [verifiedRow] noIdPatch rfl

/-- C7: `adminCreateUser` always returns either a mapped user or `none`,
and on any failure — sign-up error, missing auth user, or failed profile
insertion (whose thrown `TypeError` the `try` swallows) — it returns
`none`, with no exception and no indication of which step failed. -/
theorem c7_adminCreateUser_total (d : AdminCreateData) (signUp : SignUpResult)
    (insertOk : Bool) :
    (adminCreateUser d signUp insertOk = none ∨
      ∃ a, signUp = SignUpResult.success a ∧ insertOk = true ∧
        adminCreateUser d signUp insertOk =
          some (mapProfileToUser (adminCreateRow d a) a)) ∧
    ((signUp = SignUpResult.noUser ∨ (∃ m, signUp = SignUpResult.failure m) ∨
        insertOk = false) →
      adminCreateUser d signUp insertOk = none) := by
  constructor
  · cases signUp with
    | failure m => exact Or.inl rfl
    | noUser => exact Or.inl rfl
    | success a =>
        cases insertOk with
        | false => exact Or.inl rfl
        | true => exact Or.inr ⟨a, rfl, rfl, rfl⟩
  · intro h
    cases signUp with
    | failure m => rfl
    | noUser => rfl
    | success a =>
        rcases h with h | ⟨m, h⟩ | h
        · exact SignUpResult.noConfusion h
        · exact SignUpResult.noConfusion h
        · subst h; rfl

/-- Witness for `c7_adminCreateUser_total` on a failed account creation. -/
theorem c7_witness :
    adminCreateUser sampleAdminData (SignUpResult.failure "duplicate email".toList) true =
      none :=
  (c7_adminCreateUser_total sampleAdminData
      (SignUpResult.failure "duplicate email".toList) true).2
    (Or.inr (Or.inl ⟨"duplicate email".toList, rfl⟩))

/-- Closed form of `statusCell` by transaction type. -/
theorem statusCell_eq (t : Transaction) :
    statusCell t =
      match t.type with
      | TransactionType.TRANSFER => StatusCell.auto
      | TransactionType.WITHDRAWAL =>
          StatusCell.selector
            [TransactionStatus.PENDING, TransactionStatus.SUCCESS, TransactionStatus.REJECTED,
              TransactionStatus.CANCELLED, TransactionStatus.FAILED]
      | TransactionType.DEPOSIT =>
          StatusCell.selector
            [TransactionStatus.PENDING, TransactionStatus.SUCCESS,
              TransactionStatus.REJECTED] := by
  cases ht : t.type <;> simp [statusCell, ht]

/-- C6: a rendered transaction row offers the options CANCELLED and
FAILED (both of them) iff its type is WITHDRAWAL; a DEPOSIT selector
offers neither of the two; and a TRANSFER row gets no selector at all
but the static "Auto" cell. -/
theorem c6_status_selector (t : Transaction) :
    (∀ opts, statusCell t = StatusCell.selector opts →
        (((TransactionStatus.CANCELLED ∈ opts ∧ TransactionStatus.FAILED ∈ opts) ↔
            t.type = TransactionType.WITHDRAWAL) ∧
          (t.type = TransactionType.DEPOSIT →
            TransactionStatus.CANCELLED ∉ opts ∧ TransactionStatus.FAILED ∉ opts))) ∧
    (statusCell t = StatusCell.auto ↔ t.type = TransactionType.TRANSFER) := by
  obtain ⟨tid, tuid, ty, tam, tst, tdt⟩ := t
  cases ty with
  | DEPOSIT =>
      constructor
      · intro opts h
        rw [statusCell_eq] at h
        cases h
        constructor
        · simp
        · intro _
          simp
      · rw [statusCell_eq]
        constructor
        · intro h; exact StatusCell.noConfusion h
        · intro h; exact TransactionType.noConfusion h
  | WITHDRAWAL =>
      constructor
      · intro opts h
        rw [statusCell_eq] at h
        cases h
        constructor
        · simp
        · intro h2
          exact TransactionType.noConfusion h2
      · rw [statusCell_eq]
        constructor
        · intro h; exact StatusCell.noConfusion h
        · intro h; exact TransactionType.noConfusion h
  | TRANSFER =>
      constructor
      · intro opts h
        rw [statusCell_eq] at h
        exact StatusCell.noConfusion h
      · rw [statusCell_eq]
        exact ⟨fun _ => rfl, fun _ => rfl⟩

/-- Witness for `c6_status_selector`: the withdrawal row's selector
offers both CANCELLED and FAILED, the deposit row's selector offers
neither, and a TRANSFER row renders the "Auto" cell. -/
theorem c6_witness :
    (∃ opts, statusCell sampleTrx = StatusCell.selector opts ∧
        TransactionStatus.CANCELLED ∈ opts ∧ TransactionStatus.FAILED ∈ opts) ∧
    (∃ opts, statusCell sampleDeposit = StatusCell.selector opts ∧
        TransactionStatus.CANCELLED ∉ opts ∧ TransactionStatus.FAILED ∉ opts) ∧
    statusCell { sampleTrx with type := TransactionType.TRANSFER } = StatusCell.auto := by
  refine ⟨⟨_, rfl, ?_⟩, ⟨_, rfl, ?_⟩, ?_⟩
  · exact (((c6_status_selector sampleTrx).1 _ rfl).1).mpr rfl
  · exact ((c6_status_selector sampleDeposit).1 _ rfl).2 rfl
  · exact ((c6_status_selector
      { sampleTrx with type := TransactionType.TRANSFER }).2).mpr rfl

/-- C5: the transaction search is a pure case-insensitive substring
filter: a blank (empty or whitespace-only) search leaves the list
unfiltered; searching for an existing transaction's id keeps that
transaction; searching for the found owner's email or full name keeps
that owner's transactions; and a search string matching no transaction
yields the empty list. -/
theorem c5_trx_search (transactions : List Transaction) (users : List UserView)
    (s : Str) (t : Transaction) (u : UserView) :
    (trimStr s = [] → filterTransactions s transactions users = transactions) ∧
    (t ∈ transactions → t ∈ filterTransactions t.id transactions users) ∧
    (t ∈ transactions → users.find? (fun v => v.id == t.userId) = some u →
        t ∈ filterTransactions u.email transactions users ∧
        t ∈ filterTransactions u.fullName transactions users) ∧
    (trimStr s ≠ [] →
      (∀ t2 ∈ transactions, trxMatches (toLowerStr s) users t2 = false) →
      filterTransactions s transactions users = []) := by
  refine ⟨?_, ?_, ?_, ?_⟩
  · intro h
    simp [filterTransactions, h]
  · intro ht
    unfold filterTransactions
    split
    · exact ht
    · exact List.mem_filter.2 ⟨ht, by simp [trxMatches, includesStr, List.infix_refl]⟩
  · intro ht hfind
    constructor
    · unfold filterTransactions
      split
      · exact ht
      · exact List.mem_filter.2
          ⟨ht, by simp [trxMatches, hfind, includesStr, List.infix_refl]⟩
    · unfold filterTransactions
      split
      · exact ht
      · exact List.mem_filter.2
          ⟨ht, by simp [trxMatches, hfind, includesStr, List.infix_refl]⟩
  · intro hne hall
    unfold filterTransactions
    rw [if_neg hne]
    exact List.filter_eq_nil_iff.2 fun t2 ht2 => by simp [hall t2 ht2]

/-- Witness for `c5_trx_search` on a one-transaction list: searching the
transaction's id keeps it, searching the owner's email keeps it, and a
non-matching search empties the list. -/
theorem c5_witness :
    sampleTrx ∈ filterTransactions sampleTrx.id [sampleTrx] [sampleUserView] ∧
    sampleTrx ∈ filterTransactions sampleUserView.email [sampleTrx] [sampleUserView] ∧
    filterTransactions "zzz".toList [sampleTrx] [sampleUserView] = [] := by
  have h := c5_trx_search [sampleTrx] [sampleUserView] "zzz".toList sampleTrx sampleUserView
  refine ⟨h.2.1 (List.mem_singleton.2 rfl),
    (h.2.2.1 (List.mem_singleton.2 rfl) rfl).1,
    h.2.2.2 (by decide) ?_⟩
  intro t2 ht2
  rw [List.mem_singleton] at ht2
  subst ht2
  decide

/-- C4: with a user selected in the balance modal, a non-parsing amount
never reaches the gateway, while a parsing amount produces exactly the
gateway call with the parsed number and the chosen mode; mode "add"
applies the delta to the prior balance and mode "set" replaces it. -/
theorem c4_balance_submit (st : BalanceModalState) (u : UserView) (a : Rat)
    (hsel : st.selectedUserForBalance = some u) :
    (jsParseFloat st.balanceAmount = none →
        ∀ uid amt op st2,
          handleBalanceSubmit st ≠ (BalanceCall.gatewayCall uid amt op, st2)) ∧
    (jsParseFloat st.balanceAmount = some a →
        (handleBalanceSubmit st).1 = BalanceCall.gatewayCall u.id a st.balanceOperation) ∧
    (∀ prior delta : Rat,
        adminUpdateUserBalance prior delta BalanceOp.add = prior + delta ∧
        adminUpdateUserBalance prior delta BalanceOp.set = delta) := by
  refine ⟨?_, ?_, fun prior delta => ⟨rfl, rfl⟩⟩
  · intro hp uid amt op st2
    unfold handleBalanceSubmit
    rw [hsel]
    by_cases hb : st.balanceAmount = []
    · simp [hb]
    · simp [hb, hp]
  · intro hp
    unfold handleBalanceSubmit
    rw [hsel]
    have hb : ¬st.balanceAmount = [] := by
      intro hb
      rw [hb] at hp
      exact Option.noConfusion ((rfl : jsParseFloat [] = none) ▸ hp)
    simp [hb, hp]

/-- Witness for `c4_balance_submit`: submitting "50" in add mode calls
the gateway once with 50, and the spec-modelled gateway semantics give
100000 + 50 = 100050 for "add" and 50 for "set". -/
theorem c4_witness :
    (handleBalanceSubmit sampleBalanceState).1 =
      BalanceCall.gatewayCall sampleUserView.id 50 BalanceOp.add ∧
    adminUpdateUserBalance 100000 50 BalanceOp.add = 100050 ∧
    adminUpdateUserBalance 100000 50 BalanceOp.set = 50 := by
  have h := c4_balance_submit sampleBalanceState sampleUserView 50 rfl
  refine ⟨?_, ?_, (h.2.2 100000 50).2⟩
  · exact h.2.1 (by simp [sampleBalanceState, jsParseFloat, digitsVal])
  · rw [(h.2.2 100000 50).1]
    norm_num

/-- C10: a balance-modal submission with an empty amount string or no
selected user returns silently: no gateway call, no alert, and the modal
state (open flag, selected user, typed amount) is left exactly as it
was. -/
theorem c10_balance_submit_silent (st : BalanceModalState)
    (h : st.selectedUserForBalance = none ∨ st.balanceAmount = []) :
    handleBalanceSubmit st = (BalanceCall.silent, st) := by
  rcases h with h | h
  · unfold handleBalanceSubmit
    rw [h]
  · unfold handleBalanceSubmit
    cases hsel : st.selectedUserForBalance with
    | none => rfl
    | some u => simp [h]

/-- Witness for `c10_balance_submit_silent`: an empty amount with a user
still selected leaves the modal untouched. -/
theorem c10_witness :
    handleBalanceSubmit
        { isOpen := true
        , selectedUserForBalance := some sampleUserView
        , balanceAmount := []
        , balanceOperation := BalanceOp.set } =
      (BalanceCall.silent,
        { isOpen := true
        , selectedUserForBalance := some sampleUserView
        , balanceAmount := []
        , balanceOperation := BalanceOp.set }) :=
  c10_balance_submit_silent _ (Or.inr rfl)
